import Mathlib

/-!
Shallow embedding of the RICQ protocol core (login response decoder,
proof-of-work solver, push dedup/dispatch, group-message reassembly,
network loop status handling) and proofs of the specification claims.

Byte buffers are `List Nat` with each entry a byte value.  Fallible byte
reads (the `bytes` crate panics on underflow) are modelled in `Option`:
`none` marks a panic / non-return.  Machine integers are `Nat`/`Int` with
explicit `% 2 ^ w` where the source truncates.
-/

namespace RICQ

/-- Byte buffers: lists of byte values. -/
abbrev Bytes := List Nat

/-- The `bytes` crate `get_u8`: pops one byte, panics (`none`) when empty. -/
def getU8 : Bytes → Option (Nat × Bytes)
  | [] => none
  | b :: r => some (b, r)

/-- The `bytes` crate `get_u16` (big-endian). -/
def getU16 (d : Bytes) : Option (Nat × Bytes) :=
  match getU8 d with
  | none => none
  | some (b1, r1) =>
    match getU8 r1 with
    | none => none
    | some (b2, r2) => some (b1 * 256 + b2, r2)

/-- The `bytes` crate `get_u32` (big-endian). -/
def getU32 (d : Bytes) : Option (Nat × Bytes) :=
  match getU16 d with
  | none => none
  | some (h, r1) =>
    match getU16 r1 with
    | none => none
    | some (l, r2) => some (h * 65536 + l, r2)

/-- The `bytes` crate `copy_to_bytes(n)`: splits off `n` bytes, panics when
the buffer is shorter. -/
def splitTake (n : Nat) (d : Bytes) : Option (Bytes × Bytes) :=
  if n ≤ d.length then some (d.take n, d.drop n) else none

/-- The `bytes` crate `advance(n)`. -/
def advanceB (n : Nat) (d : Bytes) : Option Bytes :=
  match splitTake n d with
  | none => none
  | some (_, r) => r

/-- Modelled from the spec: ricq-core `BinaryReader::read_bytes_short`
(declared outside the sampled sources) reads a 16-bit big-endian length
prefix followed by that many bytes. -/
def read_bytes_short (d : Bytes) : Option (Bytes × Bytes) :=
  match getU16 d with
  | none => none
  | some (n, r) => splitTake n r

/-- Modelled from the spec: ricq-core `BinaryReader::read_string_short`,
same framing as `read_bytes_short`; strings are modelled as their raw
bytes (lossy UTF-8 conversion is the identity in this model). -/
def read_string_short (d : Bytes) : Option (Bytes × Bytes) :=
  read_bytes_short d

/-- The `bytes` crate `put_u8` (writes the low byte). -/
def putU8 (x : Nat) : Bytes := [x % 256]

/-- The `bytes` crate `put_u16` (big-endian, low 16 bits). -/
def putU16 (x : Nat) : Bytes := [x / 256 % 256, x % 256]

/-- The `bytes` crate `put_u32` (big-endian, low 32 bits). -/
def putU32 (x : Nat) : Bytes :=
  putU16 (x % 4294967296 / 65536) ++ putU16 (x % 65536)

/-- Modelled from the spec: ricq-core `BinaryWriter::write_bytes_short`
writes a 16-bit big-endian length prefix followed by the bytes. -/
def write_bytes_short (v : Bytes) : Bytes := putU16 v.length ++ v

/-- `num-bigint` `BigUint::to_bytes_be`: minimal big-endian digits, `[0]`
for zero.  Structural recursion on a fuel bound so the kernel can
evaluate it. -/
def natBytesAux : Nat → Nat → Bytes
  | 0, _ => []
  | fuel + 1, n => if n = 0 then [] else natBytesAux fuel (n / 256) ++ [n % 256]

/-- Big-endian byte encoding of a natural number, as `BigUint::to_bytes_be`. -/
def natToBytesBE (n : Nat) : Bytes :=
  if n = 0 then [0] else natBytesAux n n

/-- `BigUint::from_bytes_be`. -/
def bytesToNatBE (l : Bytes) : Nat :=
  l.foldl (fun acc b => acc * 256 + b) 0

/-- The brute-force search loop of `t546_to_t547`: starting at `tmp`, find
the first value whose digest equals `tgt`, counting increments in `cnt`.
The source loop is unbounded; `fuel` bounds the model, `none` marking a
search that has not finished within the bound. -/
def powLoop (sha256 : Bytes → Bytes) (tgt : Bytes) : Nat → Nat → Nat → Option (Nat × Nat)
  | 0, _, _ => none
  | fuel + 1, tmp, cnt =>
    if sha256 (natToBytesBE tmp) = tgt then some (tmp, cnt)
    else powLoop sha256 tgt fuel (tmp + 1) (cnt + 1)

/-- The output layout written by `t546_to_t547`: the parsed header fields,
the success flag as written (`1`/`0`), the three short-framed fields, and —
exactly when the flag is set, as in the source's `if ok` block — the
extension `dst`/`elp`/`cnt` (solved value, elapsed milliseconds, iteration
count).  Wall-clock elapsed time is outside the model; the claims do not
concern that field. -/
def t547_encode (a typ c : Nat) (ok : Bool) (e f : Nat) (src tgt cpy : Bytes)
    (dst : Bytes) (elp cnt : Nat) : Bytes :=
  putU8 a ++ putU8 typ ++ putU8 c ++ putU8 (if ok then 1 else 0) ++
    putU16 e ++ putU16 f ++
    write_bytes_short src ++ write_bytes_short tgt ++ write_bytes_short cpy ++
    (if ok then write_bytes_short dst ++ putU32 elp ++ putU32 cnt else [])

/-- The input layout read by `t546_to_t547` (a well-formed t546 challenge
built from its fields). -/
def t546_build (a typ c okb e f : Nat) (src tgt cpy : Bytes) : Bytes :=
  putU8 a ++ putU8 typ ++ putU8 c ++ putU8 okb ++ putU16 e ++ putU16 f ++
    write_bytes_short src ++ write_bytes_short tgt ++ write_bytes_short cpy

/-- `t546_to_t547` from `ricq-core/src/command/wtlogin/mod.rs`: parse the
challenge; when the declared type is 2 and the target hash is 32 bytes
long, brute-force the preimage starting from `src` read big-endian and
re-encode with the success flag forced on and the solved extension;
otherwise re-encode the fields with the flag as provided and the
initial `dst = []`, `elp = 0`, `cnt = 0` — so a nonzero input flag still
appends the (empty) extension.  The SHA-256 digest (external `sha2`
crate) is a parameter; `fuel` bounds the unbounded source loop. -/
def t546_to_t547 (sha256 : Bytes → Bytes) (fuel : Nat) (data : Bytes) : Option Bytes := do
  let (a, d) ← getU8 data
  let (typ, d) ← getU8 d
  let (c, d) ← getU8 d
  let (okb, d) ← getU8 d
  let (e, d) ← getU16 d
  let (f, d) ← getU16 d
  let (src, d) ← read_bytes_short d
  let (tgt, d) ← read_bytes_short d
  let (cpy, _) ← read_bytes_short d
  if typ = 2 ∧ tgt.length = 32 then
    match powLoop sha256 tgt fuel (bytesToNatBE src) 0 with
    | none => none
    | some (tmp, cnt) =>
      some (t547_encode a typ c true e f src tgt cpy (natToBytesBE tmp) 0 cnt)
  else
    some (t547_encode a typ c (okb != 0) e f src tgt cpy [] 0 0)

theorem getU8_putU8 (a : Nat) (r : Bytes) (h : a < 256) :
    getU8 (putU8 a ++ r) = some (a, r) := by
  simp [getU8, putU8, Nat.mod_eq_of_lt h]

theorem getU16_putU16 (e : Nat) (r : Bytes) (h : e < 65536) :
    getU16 (putU16 e ++ r) = some (e, r) := by
  have hd : e / 256 < 256 := Nat.div_lt_of_lt_mul h
  simp [getU16, getU8, putU16, Nat.mod_eq_of_lt hd]
  omega

theorem splitTake_append (v r : Bytes) : splitTake v.length (v ++ r) = some (v, r) := by
  simp [splitTake]

theorem read_bytes_short_append (v r : Bytes) (h : v.length < 65536) :
    read_bytes_short (write_bytes_short v ++ r) = some (v, r) := by
  simp only [write_bytes_short, List.append_assoc, read_bytes_short,
    getU16_putU16 v.length (v ++ r) h, splitTake_append]

/-- Evaluation of `t546_to_t547` on a well-formed challenge built from its
fields. -/
theorem t546_to_t547_build (sha : Bytes → Bytes) (fuel a typ c okb e f : Nat)
    (src tgt cpy : Bytes)
    (ha : a < 256) (htyp : typ < 256) (hc : c < 256) (hok : okb < 256)
    (he : e < 65536) (hf : f < 65536)
    (hsrc : src.length < 65536) (htgt : tgt.length < 65536) (hcpy : cpy.length < 65536) :
    t546_to_t547 sha fuel (t546_build a typ c okb e f src tgt cpy) =
      if typ = 2 ∧ tgt.length = 32 then
        match powLoop sha tgt fuel (bytesToNatBE src) 0 with
        | none => none
        | some (tmp, cnt) =>
          some (t547_encode a typ c true e f src tgt cpy (natToBytesBE tmp) 0 cnt)
      else some (t547_encode a typ c (okb != 0) e f src tgt cpy [] 0 0) := by
  have hcpy' : read_bytes_short (write_bytes_short cpy) = some (cpy, []) := by
    have := read_bytes_short_append cpy [] hcpy
    simpa using this
  simp only [t546_to_t547, t546_build, List.append_assoc]
  rw [getU8_putU8 a _ ha]
  simp only [Option.bind_eq_bind, Option.some_bind]
  rw [getU8_putU8 typ _ htyp]
  simp only [Option.some_bind]
  rw [getU8_putU8 c _ hc]
  simp only [Option.some_bind]
  rw [getU8_putU8 okb _ hok]
  simp only [Option.some_bind]
  rw [getU16_putU16 e _ he]
  simp only [Option.some_bind]
  rw [getU16_putU16 f _ hf]
  simp only [Option.some_bind]
  rw [read_bytes_short_append src _ hsrc]
  simp only [Option.some_bind]
  rw [read_bytes_short_append tgt _ htgt]
  simp only [Option.some_bind]
  rw [hcpy']
  simp only [Option.some_bind]

/-- Correctness of the brute-force loop: when `n` is the least value at or
above the start whose digest matches, and the loop has enough fuel, it
returns `n` with the iteration count `n - start` added to the accumulator. -/
theorem powLoop_finds (sha : Bytes → Bytes) (tgt : Bytes) (n : Nat) :
    ∀ (fuel start cnt : Nat), start ≤ n → n - start < fuel →
    sha (natToBytesBE n) = tgt →
    (∀ m, start ≤ m → m < n → sha (natToBytesBE m) ≠ tgt) →
    powLoop sha tgt fuel start cnt = some (n, cnt + (n - start)) := by
  intro fuel
  induction fuel with
  | zero => intro start cnt _ hf _ _; omega
  | succ fuel ih =>
    intro start cnt hle hf hn hleast
    by_cases hs : sha (natToBytesBE start) = tgt
    · have hstart : start = n := by
        by_contra hne
        exact hleast start le_rfl (lt_of_le_of_ne hle hne) hs
      subst hstart
      simp [powLoop, hs]
    · have hlt : start < n := by
        rcases Nat.lt_or_ge start n with h | h
        · exact h
        · have : start = n := le_antisymm hle h
          exact absurd (this ▸ hn) hs
      have := ih (start + 1) (cnt + 1) hlt (by omega) hn
        (fun m hm1 hm2 => hleast m (by omega) hm2)
      simp only [powLoop, hs, if_false]
      rw [this]
      have harith : cnt + 1 + (n - (start + 1)) = cnt + (n - start) := by omega
      rw [harith]

/-- Demonstration digest for witnesses: maps a buffer to 31 zero bytes
followed by its value modulo 256.  Total and kernel-evaluable. -/
def powDemoHash (b : Bytes) : Bytes := List.replicate 31 0 ++ [bytesToNatBE b % 256]

/-- Target digest for the demonstration challenge: the digest of 2. -/
def powDemoTgt : Bytes := powDemoHash (natToBytesBE 2)

/-- C2: for a well-formed type-2 challenge with a 32-byte target hash,
`t546_to_t547` finds the least `n` at or above `src` (read big-endian)
whose digest equals `tgt`, and the returned payload embeds `n` as the
solved value with iteration count `n - src` and the success flag set. -/
theorem t546_to_t547_solves (sha : Bytes → Bytes) (fuel a c okb e f : Nat)
    (src tgt cpy : Bytes) (n : Nat)
    (ha : a < 256) (hc : c < 256) (hok : okb < 256)
    (he : e < 65536) (hf : f < 65536)
    (hsrc : src.length < 65536) (hcpy : cpy.length < 65536)
    (htgt : tgt.length = 32)
    (hge : bytesToNatBE src ≤ n) (hfuel : n - bytesToNatBE src < fuel)
    (hn : sha (natToBytesBE n) = tgt)
    (hleast : ∀ m, bytesToNatBE src ≤ m → m < n → sha (natToBytesBE m) ≠ tgt) :
    t546_to_t547 sha fuel (t546_build a 2 c okb e f src tgt cpy) =
      some (t547_encode a 2 c true e f src tgt cpy
        (natToBytesBE n) 0 (n - bytesToNatBE src)) := by
  rw [t546_to_t547_build sha fuel a 2 c okb e f src tgt cpy ha (by norm_num) hc hok
    he hf hsrc (by omega) hcpy]
  rw [if_pos ⟨rfl, htgt⟩]
  rw [powLoop_finds sha tgt n fuel (bytesToNatBE src) 0 hge hfuel hn hleast]
  rw [Nat.zero_add]

/-- Witness for C2: a concrete challenge with `src = 0` and target the
digest of 2 solves to value 2 with iteration count 2. -/
theorem t546_to_t547_solves_witness :
    t546_to_t547 powDemoHash 100 (t546_build 0 2 0 0 0 0 [] powDemoTgt []) =
      some (t547_encode 0 2 0 true 0 0 [] powDemoTgt []
        (natToBytesBE 2) 0 (2 - bytesToNatBE [])) :=
  t546_to_t547_solves powDemoHash 100 0 0 0 0 0 [] powDemoTgt [] 2
    (by decide) (by decide) (by decide) (by decide) (by decide)
    (by decide) (by decide) (by decide)
    (by decide) (by decide) (by decide)
    (by intro m h1 h2; interval_cases m <;> decide)

/-- C7 amended: for a challenge whose type is not 2 or whose target hash is
not exactly 32 bytes, `t546_to_t547` never runs the solver: it re-encodes
the parsed fields with the success flag left as provided in the input
(normalized to `1`/`0`), not forced to false, and — exactly when that flag
byte is nonzero — appends the extension in its initial state (empty solved
value, zero elapsed time, zero iteration count); with a zero flag byte no
extension is appended. -/
theorem t546_to_t547_passthrough (sha : Bytes → Bytes) (fuel a typ c okb e f : Nat)
    (src tgt cpy : Bytes)
    (ha : a < 256) (htyp : typ < 256) (hc : c < 256) (hok : okb < 256)
    (he : e < 65536) (hf : f < 65536)
    (hsrc : src.length < 65536) (htgt : tgt.length < 65536) (hcpy : cpy.length < 65536)
    (hnot : ¬(typ = 2 ∧ tgt.length = 32)) :
    t546_to_t547 sha fuel (t546_build a typ c okb e f src tgt cpy) =
      some (t547_encode a typ c (okb != 0) e f src tgt cpy [] 0 0) := by
  rw [t546_to_t547_build sha fuel a typ c okb e f src tgt cpy ha htyp hc hok
    he hf hsrc htgt hcpy]
  rw [if_neg hnot]

/-- Witness for C7 (amended): a concrete non-type-2 challenge with flag
byte 1 passes through with its fields re-encoded and the empty initial
extension appended. -/
theorem t546_to_t547_passthrough_witness :
    t546_to_t547 powDemoHash 0 (t546_build 9 0 7 1 3 4 [5] [6] [8]) =
      some (t547_encode 9 0 7 ((1 : Nat) != 0) 3 4 [5] [6] [8] [] 0 0) :=
  t546_to_t547_passthrough powDemoHash 0 9 0 7 1 3 4 [5] [6] [8]
    (by decide) (by decide) (by decide) (by decide) (by decide)
    (by decide) (by decide) (by decide) (by decide) (by decide)

/-- Counterexample to C7 as stated: for a 14-byte type-0 challenge whose
input success-flag byte is 1, the output's success-flag byte (offset 3) is
1, not 0 — the flag is left as provided, not set to false — and the output
is 24 bytes long: the 10-byte initial extension (empty solved value, zero
elapsed, zero count) is appended, refuting "no solved-value extension
appended". -/
theorem t546_to_t547_flag_counterexample :
    (t546_build 9 0 7 1 0 0 [] [] [])[1]? = some 0 ∧
    (t546_build 9 0 7 1 0 0 [] [] []).length = 14 ∧
    (t546_to_t547 (fun _ => []) 0 (t546_build 9 0 7 1 0 0 [] [] [])).map
      (fun l => l[3]?) = some (some 1) ∧
    (t546_to_t547 (fun _ => []) 0 (t546_build 9 0 7 1 0 0 [] [] [])).map
      (fun l => l.length) = some 24 := by
  decide

/-! ## Login response decoder (`LoginResponse::decode`) -/

/-- The TLV mapping: tag (u16) to raw bytes.  Keys are unique (Rust
`HashMap`). -/
abbrev TlvMap := List (Nat × Bytes)

/-- Lookup part of `HashMap::remove`. -/
def tlvGet (m : TlvMap) (k : Nat) : Option Bytes :=
  (m.find? (fun e => e.fst == k)).map (fun e => e.snd)

/-- Erasure part of `HashMap::remove` (keys unique, so erasing every match
equals erasing the one entry). -/
def tlvErase (m : TlvMap) (k : Nat) : TlvMap :=
  m.filter (fun e => e.fst != k)

/-- `HashMap::remove`: the removed value, and the map without the entry. -/
def tlvRemove (m : TlvMap) (k : Nat) : Option Bytes × TlvMap :=
  (tlvGet m k, tlvErase m k)

/-- `RQError` restricted to the variant this decoder produces. -/
inductive RQError where
  | Decode (msg : String)
deriving DecidableEq

structure ImageCaptcha where
  sign : Bytes
  image : Bytes

structure LoginSuccess (T161 T11A T512 : Type) where
  rollback_sig : Option T161
  rand_seed : Option Bytes
  ksid : Option Bytes
  account_info : Option T11A
  t512 : Option T512
  t402 : Option Bytes
  wt_session_ticket_key : Option Bytes
  srm_token : Option Bytes
  t133 : Option Bytes
  encrypt_a1 : Option Bytes
  tgt : Option Bytes
  tgt_key : Option Bytes
  user_st_key : Option Bytes
  user_st_web_sig : Option Bytes
  s_key : Option Bytes
  s_key_expired_time : Int
  d2 : Option Bytes
  d2key : Option Bytes
  device_token : Option Bytes

structure LoginNeedCaptcha where
  t104 : Option Bytes
  verify_url : Option Bytes
  image_captcha : Option ImageCaptcha
  t547 : Option Bytes

structure LoginDeviceLocked where
  t104 : Option Bytes
  t174 : Option Bytes
  t402 : Option Bytes
  sms_phone : Option Bytes
  verify_url : Option Bytes
  message : Option Bytes
  rand_seed : Option Bytes

structure LoginDeviceLockLogin where
  t104 : Option Bytes
  t402 : Option Bytes
  rand_seed : Option Bytes

structure LoginUnknownStatus where
  status : Nat
  tlv_map : TlvMap
  message : Bytes

/-- `LoginResponse`: one variant per server status class.  Strings are
modelled as raw bytes (lossy UTF-8 conversion is the identity here). -/
inductive LoginResponse (T161 T11A T512 : Type) where
  | Success (s : LoginSuccess T161 T11A T512)
  | NeedCaptcha (s : LoginNeedCaptcha)
  | AccountFrozen
  | DeviceLocked (s : LoginDeviceLocked)
  | TooManySMSRequest
  | DeviceLockLogin (s : LoginDeviceLockLogin)
  | UnknownStatus (s : LoginUnknownStatus)

/-- External collaborators of `LoginResponse::decode`: the nested TLV
decoders from `tlv_reader` (declared outside the sampled sources), the
wall clock, and the SHA-256 digest with the model's fuel bound for the
proof-of-work loop.  All are abstract parameters. -/
structure LoginDecoders (T161 T11A T512 : Type) where
  decode_t119 : Bytes → Bytes → TlvMap
  decode_t161 : Bytes → T161
  read_t11a : Bytes → T11A
  read_t512 : Bytes → T512
  now_secs : Int
  sha256 : Bytes → Bytes
  pow_fuel : Nat

/-- The `0x165` image-captcha closure in the status-2 branch: a 16-bit
signature length, two skipped bytes, the signature, then the image. -/
def parseImageCaptcha (img_data : Bytes) : Option ImageCaptcha := do
  let (sign_len, d) ← getU16 img_data
  let (_, d) ← getU16 d
  let (image_sign, d) ← splitTake sign_len d
  some { sign := image_sign, image := d }

/-- The sms-phone closure in the status-160/239 branch: two short strings
formatted as `+<code> <number>` (bytes 43 and 32 are `+` and space). -/
def parseSmsPhone (v : Bytes) : Option Bytes := do
  let (country_code, d) ← read_string_short v
  let (phone_number, _) ← read_string_short d
  some (43 :: country_code ++ 32 :: phone_number)

/-- The `0x146` closure in the catch-all branch: skip 4 bytes, read the
title (discarded) and the message. -/
def parseT146Message (v : Bytes) : Option Bytes := do
  let d ← advanceB 4 v
  let (_title, d) ← read_string_short d
  let (message, _) ← read_string_short d
  some message

/-- `LoginResponse::decode` from `ricq-core/src/command/wtlogin/mod.rs`.
The outer `Option` marks a panic inside one of the byte-parsing closures
(or proof-of-work fuel exhaustion); the `Except` is the Rust `RQResult`. -/
def LoginResponse.decode {T161 T11A T512 : Type} (D : LoginDecoders T161 T11A T512)
    (status : Nat) (tlv_map : TlvMap) (encrypt_key : Bytes) :
    Option (Except RQError (LoginResponse T161 T11A T512)) :=
  if status = 0 then
    match tlvRemove tlv_map 0x119 with
    | (none, _) => some (Except.error (RQError.Decode "missing 0x119"))
    | (some v, m1) =>
      let t119 := D.decode_t119 v encrypt_key
      let (rollback_sig_v, m2) := tlvRemove m1 0x161
      let (rand_seed_v, m3) := tlvRemove m2 0x403
      let (ksid_v, t1) := tlvRemove t119 0x108
      let (account_info_v, t2) := tlvRemove t1 0x11a
      let (t512_v, t3) := tlvRemove t2 0x512
      let (t402_v, _m4) := tlvRemove m3 0x402
      let (wt_v, t4) := tlvRemove t3 0x134
      let (srm_v, t5) := tlvRemove t4 0x16a
      let (t133_v, t6) := tlvRemove t5 0x133
      let (a1_v, t7) := tlvRemove t6 0x106
      let (tgt_v, t8) := tlvRemove t7 0x10a
      let (tgt_key_v, t9) := tlvRemove t8 0x10d
      let (ust_v, t10) := tlvRemove t9 0x10e
      let (ustw_v, t11) := tlvRemove t10 0x103
      let (s_key_v, t12) := tlvRemove t11 0x120
      let (d2_v, t13) := tlvRemove t12 0x143
      let (d2key_v, t14) := tlvRemove t13 0x305
      let (dt_v, _t15) := tlvRemove t14 0x322
      some (Except.ok (LoginResponse.Success {
        rollback_sig := rollback_sig_v.map D.decode_t161
        rand_seed := rand_seed_v
        ksid := ksid_v
        account_info := account_info_v.map D.read_t11a
        t512 := t512_v.map D.read_t512
        t402 := t402_v
        wt_session_ticket_key := wt_v
        srm_token := srm_v
        t133 := t133_v
        encrypt_a1 := a1_v
        tgt := tgt_v
        tgt_key := tgt_key_v
        user_st_key := ust_v
        user_st_web_sig := ustw_v
        s_key := s_key_v
        s_key_expired_time := D.now_secs + 21600
        d2 := d2_v
        d2key := d2key_v
        device_token := dt_v }))
  else if status = 2 then
    let (t104_v, m1) := tlvRemove tlv_map 0x104
    let (url_v, m2) := tlvRemove m1 0x192
    let (img_v, m3) := tlvRemove m2 0x165
    let (t546_v, _m4) := tlvRemove m3 0x546
    match img_v.map parseImageCaptcha with
    | some none => none
    | captcha =>
      match t546_v.map (t546_to_t547 D.sha256 D.pow_fuel) with
      | some none => none
      | t547v =>
        some (Except.ok (LoginResponse.NeedCaptcha {
          t104 := t104_v
          verify_url := url_v
          image_captcha := captcha.bind id
          t547 := t547v.bind id }))
  else if status = 40 then some (Except.ok LoginResponse.AccountFrozen)
  else if status = 160 ∨ status = 239 then
    let (t174_v, m1) := tlvRemove tlv_map 0x174
    let (t178_v, m2) := tlvRemove m1 0x178
    let sms := if t174_v.isSome then t178_v.map parseSmsPhone else none
    match sms with
    | some none => none
    | _ =>
      let (url_v, m3) := tlvRemove m2 0x204
      let (msg_v, m4) := tlvRemove m3 0x17e
      let (rand_seed_v, m5) := tlvRemove m4 0x403
      let (t104_v, m6) := tlvRemove m5 0x104
      let (t402_v, _m7) := tlvRemove m6 0x402
      some (Except.ok (LoginResponse.DeviceLocked {
        sms_phone := sms.bind id
        verify_url := url_v
        message := msg_v
        rand_seed := rand_seed_v
        t104 := t104_v
        t174 := t174_v
        t402 := t402_v }))
  else if status = 162 then some (Except.ok LoginResponse.TooManySMSRequest)
  else if status = 204 then
    let (t104_v, m1) := tlvRemove tlv_map 0x104
    let (t402_v, m2) := tlvRemove m1 0x402
    let (rand_seed_v, _m3) := tlvRemove m2 0x403
    some (Except.ok (LoginResponse.DeviceLockLogin {
      t104 := t104_v
      t402 := t402_v
      rand_seed := rand_seed_v }))
  else
    let (t146_v, m1) := tlvRemove tlv_map 0x146
    match t146_v.map parseT146Message with
    | some none => none
    | msg =>
      some (Except.ok (LoginResponse.UnknownStatus {
        status := status
        tlv_map := m1
        message := (msg.bind id).getD [] }))

/-- C1: when the TLV map has no entry for tag `0x119`, `decode` with
status 0 returns the missing-field decode error — it does not panic
(result is not `none`) and never returns a `Success` variant. -/
theorem decode_status0_missing_t119 {T161 T11A T512 : Type}
    (D : LoginDecoders T161 T11A T512) (tlv_map : TlvMap) (encrypt_key : Bytes)
    (h : tlvGet tlv_map 0x119 = none) :
    LoginResponse.decode D 0 tlv_map encrypt_key =
      some (Except.error (RQError.Decode "missing 0x119")) := by
  unfold LoginResponse.decode
  rw [if_pos rfl]
  simp only [tlvRemove, h]

/-- Witness for C1: the empty TLV map with trivial external decoders. -/
theorem decode_status0_missing_t119_witness :
    @LoginResponse.decode Unit Unit Unit
      { decode_t119 := fun _ _ => [], decode_t161 := fun _ => (),
        read_t11a := fun _ => (), read_t512 := fun _ => (),
        now_secs := 0, sha256 := fun _ => [], pow_fuel := 0 }
      0 [] [] = some (Except.error (RQError.Decode "missing 0x119")) :=
  decode_status0_missing_t119 _ [] [] (by decide)

/-! ## Multi-part group message reassembly (`parse_group_message`) -/

/-- One entry of a part's element list; the inner `elem` field is optional
(protobuf `Elem` with an optional body). -/
structure PushElem (α : Type) where
  elem : Option α
deriving DecidableEq

/-- `GroupMessagePart`: duplicated scalar metadata, the part index, and the
part's element entries.  Strings are modelled as raw bytes. -/
structure GroupMessagePart (α : Type) where
  seq : Int
  rand : Int
  group_code : Int
  group_name : Bytes
  group_card : Bytes
  from_uin : Int
  time : Int
  pkg_index : Int
  elems : List (PushElem α)
deriving DecidableEq

/-- The reassembled `GroupMessage`, parametric in the element type so the
two source implementations (which collect different element types) can be
compared. -/
structure GroupMessage (ε : Type) where
  seqs : List Int
  rands : List Int
  group_code : Int
  group_name : Bytes
  group_card : Bytes
  from_uin : Int
  time : Int
  elements : List ε
deriving DecidableEq

/-- Rust `parts.sort_by(|a, b| a.pkg_index.cmp(&b.pkg_index))`: a stable
sort by part index.  A stable sort by a total preorder is a unique
function of its input, so the (stable, kernel-evaluable) insertion sort
is an extensionally faithful model. -/
def sortParts {α : Type} (parts : List (GroupMessagePart α)) : List (GroupMessagePart α) :=
  parts.insertionSort (fun a b => a.pkg_index ≤ b.pkg_index)

/-- First `parse_group_message` implementation
(`ricq/src/client/processor/online_push.rs`, lines 28-70): sort by part
index, take scalar metadata from the first sorted part (defaults when the
list is empty), concatenate per-part `seq`/`rand`, and collect only the
element entries whose inner `elem` is present. -/
def parse_group_message {α : Type} (parts : List (GroupMessagePart α)) : GroupMessage α :=
  let sorted := sortParts parts
  { group_code := (sorted.head?.map (fun p => p.group_code)).getD 0
    group_name := (sorted.head?.map (fun p => p.group_name)).getD []
    group_card := (sorted.head?.map (fun p => p.group_card)).getD []
    from_uin := (sorted.head?.map (fun p => p.from_uin)).getD 0
    time := (sorted.head?.map (fun p => p.time)).getD 0
    seqs := sorted.map (fun p => p.seq)
    rands := sorted.map (fun p => p.rand)
    elements := sorted.flatMap (fun p => p.elems.filterMap (fun e => e.elem)) }

/-- Second `parse_group_message` implementation (same file, lines 72-114):
identical sorting and metadata selection (the `is_first_part` loop reads
the first sorted part, with zero/empty defaults), but every element entry
is retained as received.  `MessageChain::from` (declared outside the
sampled sources) is, per the spec's design note, the retain-all policy. -/
def parse_group_message_v2 {α : Type} (parts : List (GroupMessagePart α)) :
    GroupMessage (PushElem α) :=
  let sorted := sortParts parts
  { group_code := (sorted.head?.map (fun p => p.group_code)).getD 0
    group_name := (sorted.head?.map (fun p => p.group_name)).getD []
    group_card := (sorted.head?.map (fun p => p.group_card)).getD []
    from_uin := (sorted.head?.map (fun p => p.from_uin)).getD 0
    time := (sorted.head?.map (fun p => p.time)).getD 0
    seqs := sorted.map (fun p => p.seq)
    rands := sorted.map (fun p => p.rand)
    elements := sorted.flatMap (fun p => p.elems) }

theorem filterMap_flatMap {α β γ : Type} (l : List α) (f : α → List β) (g : β → Option γ) :
    (l.flatMap f).filterMap g = l.flatMap (fun a => (f a).filterMap g) := by
  induction l with
  | nil => rfl
  | cons a l ih => simp [List.flatMap_cons, List.filterMap_append, ih]

/-- A strictly index-sorted list is the unique stable-sort result of any of
its permutations. -/
theorem sortParts_eq_of_perm {α : Type} (parts parts' : List (GroupMessagePart α))
    (hsorted : parts.Pairwise (fun a b => a.pkg_index < b.pkg_index))
    (hperm : parts'.Perm parts) :
    sortParts parts' = parts := by
  haveI : IsTotal (GroupMessagePart α) (fun a b => a.pkg_index ≤ b.pkg_index) :=
    ⟨fun a b => le_total a.pkg_index b.pkg_index⟩
  haveI : IsTrans (GroupMessagePart α) (fun a b => a.pkg_index ≤ b.pkg_index) :=
    ⟨fun _ _ _ h1 h2 => le_trans h1 h2⟩
  have hperm2 : (sortParts parts').Perm parts := by
    unfold sortParts
    exact (List.perm_insertionSort (fun a b => a.pkg_index ≤ b.pkg_index) parts').trans hperm
  have hpair : (sortParts parts').Pairwise (fun a b => a.pkg_index ≤ b.pkg_index) := by
    unfold sortParts
    exact List.sorted_insertionSort (fun a b => a.pkg_index ≤ b.pkg_index) parts'
  have hkeys : (parts.map (fun p => p.pkg_index)).Nodup := by
    rw [List.Nodup, List.pairwise_map]
    exact hsorted.imp (fun h => ne_of_lt h)
  have hkeys2 : ((sortParts parts').map (fun p => p.pkg_index)).Nodup :=
    ((hperm2.map (fun p => p.pkg_index)).nodup_iff).mpr hkeys
  have hne : (sortParts parts').Pairwise (fun a b => a.pkg_index ≠ b.pkg_index) := by
    rw [List.Nodup, List.pairwise_map] at hkeys2
    exact hkeys2
  have hlt : (sortParts parts').Pairwise (fun a b => a.pkg_index < b.pkg_index) :=
    (hpair.and hne).imp (fun h => lt_of_le_of_ne h.1 h.2)
  haveI : IsAntisymm (GroupMessagePart α) (fun a b => a.pkg_index < b.pkg_index) :=
    ⟨fun a b h1 h2 => absurd (lt_trans h1 h2) (lt_irrefl _)⟩
  exact List.eq_of_perm_of_sorted hperm2 hlt hsorted

/-- C5 amended: for parts with pairwise-distinct `pkg_index`,
`parse_group_message` returns the same result on every permutation: the
elements are the concatenation of the parts' present elements in ascending
index order and the scalar metadata comes from the least-index part.
(Without distinctness the stable sort breaks ties by arrival order, so
permutations can differ — see the counterexample.) -/
theorem parse_group_message_perm {α : Type} (parts parts' : List (GroupMessagePart α))
    (hsorted : parts.Pairwise (fun a b => a.pkg_index < b.pkg_index))
    (hperm : parts'.Perm parts) :
    parse_group_message parts' =
      { group_code := (parts.head?.map (fun p => p.group_code)).getD 0
        group_name := (parts.head?.map (fun p => p.group_name)).getD []
        group_card := (parts.head?.map (fun p => p.group_card)).getD []
        from_uin := (parts.head?.map (fun p => p.from_uin)).getD 0
        time := (parts.head?.map (fun p => p.time)).getD 0
        seqs := parts.map (fun p => p.seq)
        rands := parts.map (fun p => p.rand)
        elements := parts.flatMap (fun p => p.elems.filterMap (fun e => e.elem)) } := by
  unfold parse_group_message
  rw [sortParts_eq_of_perm parts parts' hsorted hperm]

/-- A demonstration part carrying one element. -/
def wpart (idx : Int) (x : Nat) : GroupMessagePart Nat :=
  { seq := idx + 10, rand := idx + 20, group_code := 7, group_name := [1],
    group_card := [2], from_uin := 9, time := 5, pkg_index := idx,
    elems := [{ elem := some x }] }

/-- Witness for C5 (amended): parts arriving with indices `[2, 0, 1]` and
elements `[c], [a], [b]` reassemble to `[a, b, c]` with metadata from the
index-0 part. -/
theorem parse_group_message_perm_witness :
    parse_group_message [wpart 2 300, wpart 0 100, wpart 1 200] =
      { group_code := 7, group_name := [1], group_card := [2], from_uin := 9,
        time := 5, seqs := [10, 11, 12], rands := [20, 21, 22],
        elements := [100, 200, 300] } := by
  have h := parse_group_message_perm [wpart 0 100, wpart 1 200, wpart 2 300]
    [wpart 2 300, wpart 0 100, wpart 1 200] (by decide) (by decide)
  exact h.trans (by decide)

/-- Two parts sharing `pkg_index` 0 but carrying different elements. -/
def wdupA : GroupMessagePart Nat :=
  { seq := 0, rand := 0, group_code := 0, group_name := [], group_card := [],
    from_uin := 0, time := 0, pkg_index := 0, elems := [{ elem := some 1 }] }

def wdupB : GroupMessagePart Nat :=
  { seq := 0, rand := 0, group_code := 0, group_name := [], group_card := [],
    from_uin := 0, time := 0, pkg_index := 0, elems := [{ elem := some 2 }] }

/-- Counterexample to C5 as stated: two parts with equal `pkg_index` are a
permutation of each other in either order, yet the two orders reassemble
to different element sequences (the stable sort preserves arrival order
among equal indices). -/
theorem parse_group_message_perm_counterexample :
    [wdupA, wdupB].Perm [wdupB, wdupA] ∧
    parse_group_message [wdupA, wdupB] ≠ parse_group_message [wdupB, wdupA] := by
  constructor
  · exact List.Perm.swap wdupB wdupA []
  · decide

/-- C9: the two `parse_group_message` implementations agree on `seqs`,
`rands`, and every scalar metadata field; their element lists differ
exactly in that the first keeps only the entries whose inner `elem` is
present while the second retains every entry. -/
theorem parse_group_message_agree {α : Type} (parts : List (GroupMessagePart α)) :
    (parse_group_message parts).seqs = (parse_group_message_v2 parts).seqs ∧
    (parse_group_message parts).rands = (parse_group_message_v2 parts).rands ∧
    (parse_group_message parts).group_code = (parse_group_message_v2 parts).group_code ∧
    (parse_group_message parts).group_name = (parse_group_message_v2 parts).group_name ∧
    (parse_group_message parts).group_card = (parse_group_message_v2 parts).group_card ∧
    (parse_group_message parts).from_uin = (parse_group_message_v2 parts).from_uin ∧
    (parse_group_message parts).time = (parse_group_message_v2 parts).time ∧
    (parse_group_message parts).elements =
      ((parse_group_message_v2 parts).elements).filterMap (fun e => e.elem) := by
  refine ⟨rfl, rfl, rfl, rfl, rfl, rfl, rfl, ?_⟩
  unfold parse_group_message parse_group_message_v2
  simp only
  rw [filterMap_flatMap]

/-! ## Dedup caches and push processing -/

/-- Two's-complement truncation to 32 bits (Rust `as i32`). -/
def toI32 (x : Int) : Int := (x + 2147483648) % 4294967296 - 2147483648

/-- Modelled from the spec: the bounded metrics-driven dedup cache (the
`cached`-crate container behind `push_req_cache` / `push_trans_cache`,
whose concrete type is declared outside the sampled sources): a key set
with hit/miss counters. -/
structure MetricsCache where
  entries : List (Int × Int)
  hits : Nat
  misses : Nat
deriving DecidableEq

/-- `Cached::cache_get`: reports presence and records a hit or a miss. -/
def cache_get (c : MetricsCache) (k : Int × Int) : Bool × MetricsCache :=
  if c.entries.contains k then (true, { c with hits := c.hits + 1 })
  else (false, { c with misses := c.misses + 1 })

/-- `Cached::cache_set`: inserts the key (keys are unique). -/
def cache_set (c : MetricsCache) (k : Int × Int) : MetricsCache :=
  if c.entries.contains k then c else { c with entries := k :: c.entries }

/-- Modelled from the spec: `flush` clears the entire store (the spec's
eviction policy: "the entire cache is cleared"). -/
def cache_flush (c : MetricsCache) : MetricsCache := { c with entries := [] }

/-- `Cached::cache_reset_metrics`: zeroes both counters. -/
def cache_reset_metrics (c : MetricsCache) : MetricsCache :=
  { c with hits := 0, misses := 0 }

/-- The client state read by the push dedup paths. -/
structure PushClient where
  uin : Int
  start_time : Int
  push_req_cache : MetricsCache
  push_trans_cache : MetricsCache
deriving DecidableEq

/-- `jce::PushMessageInfo`, restricted to the fields the dispatcher reads. -/
structure PushMessageInfo where
  msg_type : Int
  msg_seq : Int
  msg_uid : Int
  msg_time : Int
  v_msg : Bytes
deriving DecidableEq

/-- `PushTransInfo`, with the external payload structs abstract. -/
inductive PushTransInfo (π : Type) where
  | MemberLeave (x : π)
  | MemberPermissionChange (x : π)
  | GroupDisband (x : π)
deriving DecidableEq

/-- `OnlinePushTrans`. -/
structure OnlinePushTrans (π : Type) where
  msg_seq : Int
  msg_uid : Int
  msg_time : Int
  info : PushTransInfo π
deriving DecidableEq

/-- `push_req_exists` (`online_push.rs`, lines 321-337): the time-gate
exempts a zero (truncated) timestamp, then the keyed cache lookup with the
miss-threshold flush. -/
def push_req_exists (c : PushClient) (info : PushMessageInfo) : Bool × PushClient :=
  let msg_time := toI32 info.msg_time
  if msg_time ≠ 0 ∧ c.start_time > msg_time then (true, c)
  else
    let key := (info.msg_seq, info.msg_uid)
    match cache_get c.push_req_cache key with
    | (true, cache1) => (true, { c with push_req_cache := cache1 })
    | (false, cache1) =>
      let cache2 := cache_set cache1 key
      let cache3 :=
        if cache2.misses > 10 then cache_reset_metrics (cache_flush cache2) else cache2
      (false, { c with push_req_cache := cache3 })

/-- `push_trans_exists` (`online_push.rs`, lines 373-389): same shape as
`push_req_exists` but with no zero-timestamp exemption and a separate
cache. -/
def push_trans_exists {π : Type} (c : PushClient) (info : OnlinePushTrans π) :
    Bool × PushClient :=
  if c.start_time > toI32 info.msg_time then (true, c)
  else
    let key := (info.msg_seq, info.msg_uid)
    match cache_get c.push_trans_cache key with
    | (true, cache1) => (true, { c with push_trans_cache := cache1 })
    | (false, cache1) =>
      let cache2 := cache_set cache1 key
      let cache3 :=
        if cache2.misses > 10 then cache_reset_metrics (cache_flush cache2) else cache2
      (false, { c with push_trans_cache := cache3 })

/-- Handler events emitted by `process_push_trans`. -/
inductive TransEvent (π : Type) where
  | GroupLeave (x : π)
  | MemberPermissionChange (x : π)
  | GroupDisband (x : π)
deriving DecidableEq

/-- `process_push_trans`: dedup check, then one handler event per admitted
message according to the transaction payload. -/
def process_push_trans {π : Type} (c : PushClient) (pt : OnlinePushTrans π) :
    List (TransEvent π) × PushClient :=
  match push_trans_exists c pt with
  | (true, c') => ([], c')
  | (false, c') =>
    match pt.info with
    | PushTransInfo.MemberLeave x => ([TransEvent.GroupLeave x], c')
    | PushTransInfo.MemberPermissionChange x => ([TransEvent.MemberPermissionChange x], c')
    | PushTransInfo.GroupDisband x => ([TransEvent.GroupDisband x], c')

/-- The `GroupMute` payload built in the type-732 / 0x0c branch. -/
structure GroupMute where
  group_code : Int
  operator_uin : Int
  target_uin : Int
  duration_secs : Int
deriving DecidableEq

/-- Handler events emitted by `process_push_req`; events produced by the
externally-decoded branches (protobuf/jce sub-decoders) are opaque. -/
inductive ReqEvent where
  | GroupMuteEv (m : GroupMute)
  | ExternalEv (n : Nat)
deriving DecidableEq

/-- `process_push_req` (`online_push.rs`, lines 116-319) for one message:
the dedup check, then the `msg_type` dispatch.  The type-732/0x0c group
mute branch is embedded byte-for-byte; the branches that call external
protobuf/jce decoders (`0x10`-`0x15` notify bodies and the whole
`msg_type = 528` arm) are abstracted as the parameters `f_notify` and
`f528` (`none` marks a decoder panic). -/
def process_push_req_msg (f_notify : Int → Bytes → Option (List ReqEvent))
    (f528 : Bytes → Option (List ReqEvent)) (c : PushClient) (info : PushMessageInfo) :
    Option (List ReqEvent × PushClient) :=
  match push_req_exists c info with
  | (true, c') => some ([], c')
  | (false, c') =>
    if info.msg_type = 732 then
      match getU32 info.v_msg with
      | none => none
      | some (gc, r) =>
        match getU8 r with
        | none => none
        | some (i_type, r) =>
          match getU8 r with
          | none => none
          | some (_, r) =>
            if i_type = 0x0c then
              match getU32 r with
              | none => none
              | some (op, r) =>
                if (op : Int) = c.uin then some ([], c')
                else
                  match advanceB 6 r with
                  | none => none
                  | some r =>
                    match getU32 r with
                    | none => none
                    | some (target, r) =>
                      match getU32 r with
                      | none => none
                      | some (dur, _) =>
                        some ([ReqEvent.GroupMuteEv {
                          group_code := (gc : Int)
                          operator_uin := (op : Int)
                          target_uin := (target : Int)
                          duration_secs := (dur : Int) }], c')
            else if i_type = 0x10 ∨ i_type = 0x11 ∨ i_type = 0x14 ∨ i_type = 0x15 then
              match advanceB 1 r with
              | none => none
              | some r =>
                match f_notify (gc : Int) r with
                | none => none
                | some evs => some (evs, c')
            else some ([], c')
    else if info.msg_type = 528 then
      match f528 info.v_msg with
      | none => none
      | some evs => some (evs, c')
    else some ([], c')

/-! ## Group system messages (`group_system_msg.rs`) -/

/-- A group-system request, restricted to the fields the dedup reads. -/
structure SysRequest where
  msg_seq : Int
  msg_time : Int
deriving DecidableEq

/-- `GroupSystemMessages`, restricted to the two request lists. -/
structure GroupSystemMessages where
  self_invited : List SysRequest
  join_group_requests : List SysRequest
deriving DecidableEq

/-- The client state read by the group-system-message path. -/
structure SysClient where
  start_time : Int
  group_sys_message_cache : GroupSystemMessages
deriving DecidableEq

/-- `self_invited_exists`: the time-gate, then a linear scan of the cached
batch comparing `msg_seq` only. -/
def self_invited_exists (c : SysClient) (msg_seq msg_time : Int) : Bool :=
  if c.start_time > toI32 msg_time then true
  else
    match c.group_sys_message_cache.self_invited.find? (fun m => m.msg_seq == msg_seq) with
    | none => false
    | some _ => true

/-- `join_group_request_exists`: same shape over the join-request list. -/
def join_group_request_exists (c : SysClient) (msg_seq msg_time : Int) : Bool :=
  if c.start_time > toI32 msg_time then true
  else
    match c.group_sys_message_cache.join_group_requests.find?
      (fun m => m.msg_seq == msg_seq) with
    | none => false
    | some _ => true

/-- Handler events emitted by `process_group_system_messages`. -/
inductive SysEvent where
  | SelfInvited (r : SysRequest)
  | JoinGroupRequest (r : SysRequest)
deriving DecidableEq

/-- `process_group_system_messages`: each request is emitted unless its
exists-check (against the unchanged previous cache) reports it seen; after
both passes the cache is wholesale replaced with the received batch. -/
def process_group_system_messages (c : SysClient) (msgs : GroupSystemMessages) :
    List SysEvent × SysClient :=
  let evs1 := (msgs.self_invited.filter
    (fun r => !(self_invited_exists c r.msg_seq r.msg_time))).map SysEvent.SelfInvited
  let evs2 := (msgs.join_group_requests.filter
    (fun r => !(join_group_request_exists c r.msg_seq r.msg_time))).map SysEvent.JoinGroupRequest
  (evs1 ++ evs2, { c with group_sys_message_cache := msgs })

/-! ## Network loop status handling (`net.rs`) -/

/-- Modelled from the spec: the `NetworkStatus` state set (the enum is
declared outside the sampled sources; `net.rs` and `stat_svc.rs` use the
`Running`, `NetworkOffline` and `MsfOffline` values). -/
inductive NetworkStatus where
  | Idle
  | Running
  | NetworkOffline
  | MsfOffline
deriving DecidableEq

/-- The session flags of `net.rs`: the atomic status, the online flag, and
a counter of disconnect signals sent. -/
structure NetClient where
  status : NetworkStatus
  online : Bool
  disconnect_signals : Nat
deriving DecidableEq

/-- `disconnect`: best-effort send of the disconnect signal. -/
def net_disconnect (c : NetClient) : NetClient :=
  { c with disconnect_signals := c.disconnect_signals + 1 }

/-- `stop(status)`: send the disconnect signal, force-set the status, clear
the online flag — unconditionally. -/
def net_stop (c : NetClient) (status : NetworkStatus) : NetClient :=
  let c1 := net_disconnect c
  { c1 with status := status, online := false }

/-- `start(stream)`: set status to `Running`, run the loop (an arbitrary
state transformer: the loop body only multiplexes I/O, while concurrent
`stop` calls may update the flags), then send the disconnect signal, and
transition a still-`Running` status to `NetworkOffline`. -/
def net_start (net_loop : NetClient → NetClient) (c : NetClient) : NetClient :=
  let c1 := { c with status := NetworkStatus.Running }
  let c2 := net_loop c1
  let c3 := net_disconnect c2
  if c3.status = NetworkStatus.Running then
    { c3 with status := NetworkStatus.NetworkOffline }
  else c3

/-! ## Dedup theorems -/

theorem push_trans_exists_miss {π : Type} (c : PushClient) (pt : OnlinePushTrans π)
    (hgate : ¬ c.start_time > toI32 pt.msg_time)
    (hmiss : c.push_trans_cache.entries.contains (pt.msg_seq, pt.msg_uid) = false) :
    push_trans_exists c pt =
      (false, { c with push_trans_cache :=
        if c.push_trans_cache.misses + 1 > 10 then { entries := [], hits := 0, misses := 0 }
        else { entries := (pt.msg_seq, pt.msg_uid) :: c.push_trans_cache.entries,
               hits := c.push_trans_cache.hits,
               misses := c.push_trans_cache.misses + 1 } }) := by
  simp only [push_trans_exists, if_neg hgate, cache_get, hmiss, Bool.false_eq_true,
    if_false, cache_set, cache_flush, cache_reset_metrics]

theorem push_trans_exists_hit {π : Type} (c : PushClient) (pt : OnlinePushTrans π)
    (hgate : ¬ c.start_time > toI32 pt.msg_time)
    (hhit : c.push_trans_cache.entries.contains (pt.msg_seq, pt.msg_uid) = true) :
    push_trans_exists c pt =
      (true, { c with push_trans_cache :=
        { c.push_trans_cache with hits := c.push_trans_cache.hits + 1 } }) := by
  simp only [push_trans_exists, if_neg hgate, cache_get, hhit, if_true]

theorem push_req_exists_miss (c : PushClient) (info : PushMessageInfo)
    (hgate : ¬ (toI32 info.msg_time ≠ 0 ∧ c.start_time > toI32 info.msg_time))
    (hmiss : c.push_req_cache.entries.contains (info.msg_seq, info.msg_uid) = false) :
    push_req_exists c info =
      (false, { c with push_req_cache :=
        if c.push_req_cache.misses + 1 > 10 then { entries := [], hits := 0, misses := 0 }
        else { entries := (info.msg_seq, info.msg_uid) :: c.push_req_cache.entries,
               hits := c.push_req_cache.hits,
               misses := c.push_req_cache.misses + 1 } }) := by
  simp only [push_req_exists, if_neg hgate, cache_get, hmiss, Bool.false_eq_true,
    if_false, cache_set, cache_flush, cache_reset_metrics]

theorem push_req_exists_hit (c : PushClient) (info : PushMessageInfo)
    (hgate : ¬ (toI32 info.msg_time ≠ 0 ∧ c.start_time > toI32 info.msg_time))
    (hhit : c.push_req_cache.entries.contains (info.msg_seq, info.msg_uid) = true) :
    push_req_exists c info =
      (true, { c with push_req_cache :=
        { c.push_req_cache with hits := c.push_req_cache.hits + 1 } }) := by
  simp only [push_req_exists, if_neg hgate, cache_get, hhit, if_true]

/-- C3: on a fresh cache a duplicated `(msg_seq, msg_uid)` pair yields
exactly one handler invocation (push-transaction path) and the duplicate
is suppressed (push-request path); when a lookup misses with the
cumulative miss count already at 10 or more (the 11th consecutive miss
since the last reset), the whole cache is cleared and its metrics reset,
so the next lookup — any key — is a miss. -/
theorem push_dedup_suppression {π : Type} (c ce : PushClient)
    (pt pte pt3 : OnlinePushTrans π) (info : PushMessageInfo)
    (hft : c.push_trans_cache = { entries := [], hits := 0, misses := 0 })
    (hfr : c.push_req_cache = { entries := [], hits := 0, misses := 0 })
    (hgt : ¬ c.start_time > toI32 pt.msg_time)
    (hgr : ¬ (toI32 info.msg_time ≠ 0 ∧ c.start_time > toI32 info.msg_time))
    (hce_miss : ce.push_trans_cache.entries.contains (pte.msg_seq, pte.msg_uid) = false)
    (hce_m : ce.push_trans_cache.misses ≥ 10)
    (hge : ¬ ce.start_time > toI32 pte.msg_time)
    (hg3 : ¬ (push_trans_exists ce pte).2.start_time > toI32 pt3.msg_time) :
    ((process_push_trans c pt).1.length +
      (process_push_trans (process_push_trans c pt).2 pt).1.length = 1) ∧
    ((push_req_exists c info).1 = false ∧
      (push_req_exists (push_req_exists c info).2 info).1 = true) ∧
    (push_trans_exists ce pte =
      (false, { ce with push_trans_cache := { entries := [], hits := 0, misses := 0 } })) ∧
    ((push_trans_exists (push_trans_exists ce pte).2 pt3).1 = false) := by
  have hmiss1 : c.push_trans_cache.entries.contains (pt.msg_seq, pt.msg_uid) = false := by
    rw [hft]; rfl
  have h1 := push_trans_exists_miss c pt hgt hmiss1
  rw [hft] at h1
  have hc1 : ¬ ((0 : Nat) + 1 > 10) := by decide
  rw [if_neg hc1] at h1
  have hcE : ce.push_trans_cache.misses + 1 > 10 := by omega
  have hevict := push_trans_exists_miss ce pte hge hce_miss
  rw [if_pos hcE] at hevict
  refine ⟨?_, ⟨?_, ?_⟩, hevict, ?_⟩
  · have hstep1 : (process_push_trans c pt).2 =
        { c with push_trans_cache :=
          { entries := [(pt.msg_seq, pt.msg_uid)], hits := 0, misses := 0 + 1 } } := by
      simp only [process_push_trans, h1]
      cases pt.info <;> rfl
    have hlen1 : (process_push_trans c pt).1.length = 1 := by
      simp only [process_push_trans, h1]
      cases pt.info <;> rfl
    have hhit2 := push_trans_exists_hit
      ({ c with push_trans_cache :=
        { entries := [(pt.msg_seq, pt.msg_uid)], hits := 0, misses := 0 + 1 } } : PushClient) pt
      hgt (by simp)
    have hlen2 : (process_push_trans (process_push_trans c pt).2 pt).1.length = 0 := by
      rw [hstep1]
      simp only [process_push_trans, hhit2]
      rfl
    rw [hlen1, hlen2]
  · have hmissr : c.push_req_cache.entries.contains (info.msg_seq, info.msg_uid) = false := by
      rw [hfr]; rfl
    have h2 := push_req_exists_miss c info hgr hmissr
    rw [hfr] at h2
    rw [if_neg hc1] at h2
    rw [h2]
  · have hmissr : c.push_req_cache.entries.contains (info.msg_seq, info.msg_uid) = false := by
      rw [hfr]; rfl
    have h2 := push_req_exists_miss c info hgr hmissr
    rw [hfr] at h2
    rw [if_neg hc1] at h2
    rw [h2]
    rw [push_req_exists_hit
      ({ c with push_req_cache :=
        { entries := [(info.msg_seq, info.msg_uid)], hits := 0, misses := 0 + 1 } } : PushClient)
      info hgr (by simp)]
  · have hg3' : ¬ ({ ce with push_trans_cache :=
        { entries := [], hits := 0, misses := 0 } } : PushClient).start_time >
        toI32 pt3.msg_time := by
      rw [hevict] at hg3
      exact hg3
    rw [hevict]
    show (push_trans_exists ({ ce with push_trans_cache :=
      { entries := [], hits := 0, misses := 0 } } : PushClient) pt3).1 = false
    rw [push_trans_exists_miss _ pt3 hg3' rfl]

/-- A fresh client for witnesses. -/
def wClient : PushClient :=
  { uin := 0, start_time := 0,
    push_req_cache := { entries := [], hits := 0, misses := 0 },
    push_trans_cache := { entries := [], hits := 0, misses := 0 } }

/-- A client whose trans cache has accumulated 10 misses since reset. -/
def wClientE : PushClient :=
  { uin := 0, start_time := 0,
    push_req_cache := { entries := [], hits := 0, misses := 0 },
    push_trans_cache := { entries := [(9, 9)], hits := 0, misses := 10 } }

def wPT : OnlinePushTrans Unit :=
  { msg_seq := 1, msg_uid := 2, msg_time := 0, info := PushTransInfo.MemberLeave () }

def wInfo : PushMessageInfo :=
  { msg_type := 0, msg_seq := 3, msg_uid := 4, msg_time := 0, v_msg := [] }

/-- Witness for C3: concrete states exercising the duplicate suppression
and the 11th-miss eviction. -/
theorem push_dedup_suppression_witness :
    ((process_push_trans wClient wPT).1.length +
      (process_push_trans (process_push_trans wClient wPT).2 wPT).1.length = 1) ∧
    (push_trans_exists wClientE wPT =
      (false, { wClientE with
        push_trans_cache := { entries := [], hits := 0, misses := 0 } })) ∧
    ((push_trans_exists (push_trans_exists wClientE wPT).2 wPT).1 = false) := by
  have h := push_dedup_suppression wClient wClientE wPT wPT wPT wInfo
    (by decide) (by decide) (by decide) (by decide) (by decide) (by decide)
    (by decide) (by decide)
  exact ⟨h.1, h.2.2.1, h.2.2.2⟩

/-- C4 amended: the dedup check reports a message as already seen whenever
its 32-bit-truncated timestamp is strictly before the connection start
time — unconditionally for push transactions, and for push requests only
when the truncated timestamp is nonzero (a zero timestamp is exempt from
the gate; see the counterexample). -/
theorem time_gate {π : Type} (c : PushClient) (pt : OnlinePushTrans π)
    (info : PushMessageInfo)
    (h1 : toI32 pt.msg_time < c.start_time)
    (h2 : toI32 info.msg_time ≠ 0) (h3 : toI32 info.msg_time < c.start_time) :
    push_trans_exists c pt = (true, c) ∧
    process_push_trans c pt = ([], c) ∧
    push_req_exists c info = (true, c) := by
  have ht : push_trans_exists c pt = (true, c) := by
    simp only [push_trans_exists, if_pos h1]
  refine ⟨ht, ?_, ?_⟩
  · simp only [process_push_trans, ht]
  · simp only [push_req_exists, if_pos (And.intro h2 h3)]

def wPTold : OnlinePushTrans Unit :=
  { msg_seq := 1, msg_uid := 2, msg_time := -5, info := PushTransInfo.MemberLeave () }

def wInfoOld : PushMessageInfo :=
  { msg_type := 0, msg_seq := 3, msg_uid := 4, msg_time := -5, v_msg := [] }

def wClientLate : PushClient :=
  { uin := 0, start_time := 100,
    push_req_cache := { entries := [], hits := 0, misses := 0 },
    push_trans_cache := { entries := [], hits := 0, misses := 0 } }

/-- Witness for C4 (amended): a pre-start timestamp is suppressed on first
occurrence with an empty cache. -/
theorem time_gate_witness :
    push_trans_exists wClientLate wPTold = (true, wClientLate) ∧
    process_push_trans wClientLate wPTold = ([], wClientLate) ∧
    push_req_exists wClientLate wInfoOld = (true, wClientLate) :=
  time_gate wClientLate wPTold wInfoOld (by decide) (by decide) (by decide)

def cexInfoZero : PushMessageInfo :=
  { msg_type := 0, msg_seq := 5, msg_uid := 6, msg_time := 0, v_msg := [] }

/-- Counterexample to C4 as stated: a push request timestamped 0, strictly
before a connection start time of 1, is not suppressed on first occurrence
(the zero-timestamp exemption bypasses the time-gate). -/
theorem time_gate_counterexample :
    toI32 cexInfoZero.msg_time < wClientLate.start_time ∧
    (push_req_exists wClientLate cexInfoZero).1 = false := by
  constructor
  · decide
  · rfl

/-! ## Group system message theorems -/

theorem scan_exists_iff (start_time : Int) (l : List SysRequest) (seqv timev : Int) :
    ((if start_time > toI32 timev then true
      else match l.find? (fun m => m.msg_seq == seqv) with
           | none => false
           | some _ => true) = false) ↔
      (¬ start_time > toI32 timev ∧ ∀ m ∈ l, m.msg_seq ≠ seqv) := by
  by_cases hg : start_time > toI32 timev
  · simp [hg]
  · simp only [if_neg hg]
    cases hfind : l.find? (fun m => m.msg_seq == seqv) with
    | none =>
      simp only [hfind]
      constructor
      · intro _
        refine ⟨hg, fun m hm heq => ?_⟩
        have hn := List.find?_eq_none.mp hfind m hm
        simp [heq] at hn
      · intro _
        trivial
    | some m =>
      simp only [hfind]
      constructor
      · intro hcontra
        exact absurd hcontra (by decide)
      · rintro ⟨_, hall⟩
        have hmem := List.mem_of_find?_eq_some hfind
        have hp := List.find?_some hfind
        exact absurd (by simpa using hp) (hall m hmem)

/-- C8 amended: group-system push requests are deduplicated by sequence
number alone — the linear scan compares `msg_seq` and ignores the time
component — plus the time-gate; a request is emitted exactly when the gate
passes and no cached entry shares its sequence number; after the pass the
rolling cache is wholesale replaced with the received batch. -/
theorem group_sys_dedup (c : SysClient) (msgs : GroupSystemMessages) (seqv timev : Int) :
    (self_invited_exists c seqv timev = false ↔
      (¬ c.start_time > toI32 timev ∧
        ∀ m ∈ c.group_sys_message_cache.self_invited, m.msg_seq ≠ seqv)) ∧
    (join_group_request_exists c seqv timev = false ↔
      (¬ c.start_time > toI32 timev ∧
        ∀ m ∈ c.group_sys_message_cache.join_group_requests, m.msg_seq ≠ seqv)) ∧
    (process_group_system_messages c msgs).1 =
      (msgs.self_invited.filter
        (fun r => !(self_invited_exists c r.msg_seq r.msg_time))).map
        SysEvent.SelfInvited ++
      (msgs.join_group_requests.filter
        (fun r => !(join_group_request_exists c r.msg_seq r.msg_time))).map
        SysEvent.JoinGroupRequest ∧
    (process_group_system_messages c msgs).2.group_sys_message_cache = msgs ∧
    (process_group_system_messages c msgs).2.start_time = c.start_time := by
  refine ⟨?_, ?_, rfl, rfl, rfl⟩
  · exact scan_exists_iff c.start_time c.group_sys_message_cache.self_invited seqv timev
  · exact scan_exists_iff c.start_time c.group_sys_message_cache.join_group_requests seqv timev

def c8client : SysClient :=
  { start_time := 0,
    group_sys_message_cache :=
      { self_invited := [{ msg_seq := 1, msg_time := 100 }],
        join_group_requests := [] } }

/-- Witness for C8 (amended): a sequence number absent from the cached
batch is reported unseen. -/
theorem group_sys_dedup_witness : self_invited_exists c8client 2 50 = false :=
  (group_sys_dedup c8client { self_invited := [], join_group_requests := [] } 2 50).1.mpr
    (by decide)

/-- Counterexample to C8 as stated: the cache holds the entry
`(seq 1, time 100)`; an incoming request keyed `(1, 200)` matches no cache
entry under the claimed `(sequence, time)` key and passes the time-gate,
yet it is reported already seen and not emitted — the scan compares the
sequence number only. -/
theorem group_sys_dedup_counterexample :
    (∀ m ∈ c8client.group_sys_message_cache.self_invited,
      ¬ (m.msg_seq = 1 ∧ m.msg_time = 200)) ∧
    ¬ c8client.start_time > toI32 200 ∧
    self_invited_exists c8client 1 200 = true ∧
    (process_group_system_messages c8client
      { self_invited := [{ msg_seq := 1, msg_time := 200 }],
        join_group_requests := [] }).1 = [] := by
  refine ⟨?_, by decide, rfl, rfl⟩
  intro m hm
  simp only [c8client, List.mem_singleton] at hm
  subst hm
  decide

/-! ## Network loop status theorems -/

/-- C6: `stop(reason)` always sends the disconnect signal, force-sets the
status to the given reason and clears the online flag, regardless of
current state; `start` transitions a still-`Running` status to
`NetworkOffline` after its loop exits but leaves any other status — in
particular `MsfOffline` set by a `stop(MsfOffline)` during `Running` —
untouched. -/
theorem net_status_stop_start (c : NetClient) (reason : NetworkStatus)
    (f : NetClient → NetClient) :
    (net_stop c reason).status = reason ∧
    (net_stop c reason).online = false ∧
    (net_stop c reason).disconnect_signals = c.disconnect_signals + 1 ∧
    ((f { c with status := NetworkStatus.Running }).status = NetworkStatus.Running →
      (net_start f c).status = NetworkStatus.NetworkOffline) ∧
    ((f { c with status := NetworkStatus.Running }).status = NetworkStatus.MsfOffline →
      (net_start f c).status = NetworkStatus.MsfOffline) ∧
    (net_start (fun x => net_stop x NetworkStatus.MsfOffline) c).status =
      NetworkStatus.MsfOffline := by
  refine ⟨rfl, rfl, rfl, ?_, ?_, ?_⟩
  · intro h
    have hcond : (net_disconnect
        (f { c with status := NetworkStatus.Running })).status = NetworkStatus.Running := by
      simpa [net_disconnect] using h
    simp only [net_start]
    rw [if_pos hcond]
  · intro h
    have hcond : ¬ (net_disconnect
        (f { c with status := NetworkStatus.Running })).status = NetworkStatus.Running := by
      simp [net_disconnect, h]
    simp only [net_start]
    rw [if_neg hcond]
    simp [net_disconnect, h]
  · simp only [net_start, net_stop, net_disconnect]
    rfl

def netC0 : NetClient := { status := NetworkStatus.Idle, online := true, disconnect_signals := 0 }

/-- Witness for C6: a concrete client; the identity loop leads to
`NetworkOffline`, a loop that calls `stop(MsfOffline)` leaves `MsfOffline`. -/
theorem net_status_stop_start_witness :
    (net_stop netC0 NetworkStatus.MsfOffline).status = NetworkStatus.MsfOffline ∧
    (net_stop netC0 NetworkStatus.MsfOffline).online = false ∧
    (net_start id netC0).status = NetworkStatus.NetworkOffline ∧
    (net_start (fun x => net_stop x NetworkStatus.MsfOffline) netC0).status =
      NetworkStatus.MsfOffline := by
  have h := net_status_stop_start netC0 NetworkStatus.MsfOffline id
  exact ⟨h.1, h.2.1, h.2.2.2.1 rfl, h.2.2.2.2.2⟩

/-! ## Self-mute suppression (`process_push_req`, type 732 / 0x0c) -/

theorem getU32_putU32 (v : Nat) (r : Bytes) (h : v < 4294967296) :
    getU32 (putU32 v ++ r) = some (v, r) := by
  have h1 : v % 4294967296 = v := Nat.mod_eq_of_lt h
  simp only [getU32, putU32, h1, List.append_assoc,
    getU16_putU16 (v / 65536) (putU16 (v % 65536) ++ r) (by omega),
    getU16_putU16 (v % 65536) r (by omega)]
  have h2 : v / 65536 * 65536 + v % 65536 = v := by omega
  rw [h2]

/-- C10: an admitted type-732 push whose inner type is `0x0c` (group mute)
and whose operator uin equals the client's own uin produces no handler
event — self-performed mutes are never emitted (and a suppressed duplicate
produces none either). -/
theorem push_req_self_mute_ignored (f_notify : Int → Bytes → Option (List ReqEvent))
    (f528 : Bytes → Option (List ReqEvent)) (c : PushClient) (info : PushMessageInfo)
    (gc x op : Nat) (rest : Bytes)
    (htype : info.msg_type = 732)
    (hmsg : info.v_msg = putU32 gc ++ 12 :: x :: (putU32 op ++ rest))
    (hgc : gc < 4294967296) (hop : op < 4294967296)
    (huin : (op : Int) = c.uin) :
    (process_push_req_msg f_notify f528 c info).map Prod.fst = some [] := by
  unfold process_push_req_msg
  rcases hpe : push_req_exists c info with ⟨b, c'⟩
  cases b
  · simp only [htype, if_pos rfl, hmsg]
    rw [getU32_putU32 gc _ hgc]
    simp only [getU8]
    rw [getU32_putU32 op rest hop]
    simp [huin]
  · simp

def wMuteClient : PushClient :=
  { uin := 5, start_time := 0,
    push_req_cache := { entries := [], hits := 0, misses := 0 },
    push_trans_cache := { entries := [], hits := 0, misses := 0 } }

def wMuteInfo : PushMessageInfo :=
  { msg_type := 732, msg_seq := 1, msg_uid := 2, msg_time := 0,
    v_msg := putU32 3 ++ 12 :: 0 :: (putU32 5 ++ [0, 0, 0, 0, 0, 0] ++ putU32 7 ++ putU32 9) }

/-- Witness for C10: a concrete self-mute push yields no events. -/
theorem push_req_self_mute_ignored_witness :
    (process_push_req_msg (fun _ _ => some []) (fun _ => some [])
      wMuteClient wMuteInfo).map Prod.fst = some [] :=
  push_req_self_mute_ignored (fun _ _ => some []) (fun _ => some [])
    wMuteClient wMuteInfo 3 0 5 ([0, 0, 0, 0, 0, 0] ++ putU32 7 ++ putU32 9)
    (by decide) (by decide) (by decide) (by decide) (by decide)

end RICQ
